import Mathlib

/-!
Shallow embedding of the particle subsystem of the `three-d` renderer
(`src/renderer/geometry/particles.rs`): the `ParticleData` snapshot and its
validator, the instance-buffer rebuild performed by `Particles::update`, the
shader-variant composition of `Particles::vertex_shader_source`, and the
uniform/attribute binding and draw dispatch of
`Particles::render_with_material`.

Scalar values that are `f32` in the source (vector components, matrix
entries, time) are modelled as exact rationals; the claims under study never
depend on rounding.  GPU objects (instance buffers, vertex buffers, element
buffers, compiled programs) are modelled by the data observable through them
in this module: an instance buffer is the data it was created from, a vertex
buffer is its vertex count, a compiled program is the pair of predicates
`requires_attribute` / `uniform-is-declared` that the render code consults.
-/

set_option autoImplicit false

/-- A 3-component vector (`cgmath::Vector3<f32>`), components as rationals. -/
structure Vec3 where
  x : ℚ
  y : ℚ
  z : ℚ
deriving DecidableEq, Repr

/-- A 4-component vector (`cgmath::Vector4<f32>`). -/
structure Vec4 where
  x : ℚ
  y : ℚ
  z : ℚ
  w : ℚ
deriving DecidableEq, Repr

/-- A column-major 3x3 matrix (`cgmath::Matrix3<f32>`): `x`, `y`, `z` are the
three columns, so the entry at row `r`, column `c` is component `r` of
column `c`. -/
structure Mat3 where
  x : Vec3
  y : Vec3
  z : Vec3
deriving DecidableEq, Repr

/-- A column-major 4x4 matrix (`cgmath::Matrix4<f32>`). -/
structure Mat4 where
  x : Vec4
  y : Vec4
  z : Vec4
  w : Vec4
deriving DecidableEq, Repr

/-- An RGBA colour with 8-bit channels (`three-d`'s `Color`); the particle
code never computes on colour values, it only moves them into buffers. -/
structure Color where
  r : ℕ
  g : ℕ
  b : ℕ
  a : ℕ
deriving DecidableEq, Repr

/-- Determinant of a 3x3 matrix given by rows `(a b c / d e f / g h i)`. -/
def det3 (a b c d e f g h i : ℚ) : ℚ :=
  a * (e * i - f * h) - b * (d * i - f * g) + c * (d * h - e * g)

/-- Determinant of a 4x4 matrix, by cofactor expansion along the first row.
Models `cgmath`'s `Matrix4::determinant`. -/
def Mat4.det (m : Mat4) : ℚ :=
  let a00 := m.x.x; let a01 := m.y.x; let a02 := m.z.x; let a03 := m.w.x
  let a10 := m.x.y; let a11 := m.y.y; let a12 := m.z.y; let a13 := m.w.y
  let a20 := m.x.z; let a21 := m.y.z; let a22 := m.z.z; let a23 := m.w.z
  let a30 := m.x.w; let a31 := m.y.w; let a32 := m.z.w; let a33 := m.w.w
  a00 * det3 a11 a12 a13 a21 a22 a23 a31 a32 a33
    - a01 * det3 a10 a12 a13 a20 a22 a23 a30 a32 a33
    + a02 * det3 a10 a11 a13 a20 a21 a23 a30 a31 a33
    - a03 * det3 a10 a11 a12 a20 a21 a22 a30 a31 a32

/-- Transpose of a 4x4 matrix (`cgmath`'s `Matrix4::transpose`). -/
def Mat4.transpose (m : Mat4) : Mat4 :=
  ⟨⟨m.x.x, m.y.x, m.z.x, m.w.x⟩,
   ⟨m.x.y, m.y.y, m.z.y, m.w.y⟩,
   ⟨m.x.z, m.y.z, m.z.z, m.w.z⟩,
   ⟨m.x.w, m.y.w, m.z.w, m.w.w⟩⟩

/-- Inverse of a 4x4 matrix via the adjugate, `none` when the determinant is
zero.  Models `cgmath`'s `SquareMatrix::invert` (which returns `None` for a
singular matrix); over exact rationals singularity is `det = 0`. -/
def Mat4.invert (m : Mat4) : Option Mat4 :=
  let a00 := m.x.x; let a01 := m.y.x; let a02 := m.z.x; let a03 := m.w.x
  let a10 := m.x.y; let a11 := m.y.y; let a12 := m.z.y; let a13 := m.w.y
  let a20 := m.x.z; let a21 := m.y.z; let a22 := m.z.z; let a23 := m.w.z
  let a30 := m.x.w; let a31 := m.y.w; let a32 := m.z.w; let a33 := m.w.w
  let d := m.det
  if d = 0 then none
  else
    let m00 := det3 a11 a12 a13 a21 a22 a23 a31 a32 a33
    let m01 := det3 a10 a12 a13 a20 a22 a23 a30 a32 a33
    let m02 := det3 a10 a11 a13 a20 a21 a23 a30 a31 a33
    let m03 := det3 a10 a11 a12 a20 a21 a22 a30 a31 a32
    let m10 := det3 a01 a02 a03 a21 a22 a23 a31 a32 a33
    let m11 := det3 a00 a02 a03 a20 a22 a23 a30 a32 a33
    let m12 := det3 a00 a01 a03 a20 a21 a23 a30 a31 a33
    let m13 := det3 a00 a01 a02 a20 a21 a22 a30 a31 a32
    let m20 := det3 a01 a02 a03 a11 a12 a13 a31 a32 a33
    let m21 := det3 a00 a02 a03 a10 a12 a13 a30 a32 a33
    let m22 := det3 a00 a01 a03 a10 a11 a13 a30 a31 a33
    let m23 := det3 a00 a01 a02 a10 a11 a12 a30 a31 a32
    let m30 := det3 a01 a02 a03 a11 a12 a13 a21 a22 a23
    let m31 := det3 a00 a02 a03 a10 a12 a13 a20 a22 a23
    let m32 := det3 a00 a01 a03 a10 a11 a13 a20 a21 a23
    let m33 := det3 a00 a01 a02 a10 a11 a12 a20 a21 a22
    some ⟨⟨m00 / d, -(m01 / d), m02 / d, -(m03 / d)⟩,
          ⟨-(m10 / d), m11 / d, -(m12 / d), m13 / d⟩,
          ⟨m20 / d, -(m21 / d), m22 / d, -(m23 / d)⟩,
          ⟨-(m30 / d), m31 / d, -(m32 / d), m33 / d⟩⟩

/-- The 4x4 identity matrix (`Mat4::identity()`). -/
def Mat4.identity : Mat4 :=
  ⟨⟨1, 0, 0, 0⟩, ⟨0, 1, 0, 0⟩, ⟨0, 0, 1, 0⟩, ⟨0, 0, 0, 1⟩⟩

/-- The 3x3 identity matrix (`Mat3::identity()`). -/
def Mat3.identity : Mat3 :=
  ⟨⟨1, 0, 0⟩, ⟨0, 1, 0⟩, ⟨0, 0, 1⟩⟩

/-- The error type of the validator: `RendererError::InvalidBufferLength
(name, expected, actual)` is the only variant the particle code raises. -/
inductive RendererError where
  | InvalidBufferLength (name : String) (expected : ℕ) (actual : ℕ)
deriving DecidableEq, Repr

/-- `ParticleData` (particles.rs lines 10-19): per-instance initial state. -/
structure ParticleData where
  start_positions : List Vec3
  start_velocities : List Vec3
  texture_transforms : Option (List Mat3)
  colors : Option (List Color)
deriving DecidableEq, Repr

/-- `ParticleData::count` (particles.rs line 52): the number of instances is
the length of `start_positions`. -/
def ParticleData.count (d : ParticleData) : ℕ :=
  d.start_positions.length

/-- The `buffer_check` closure inside `ParticleData::validate` (particles.rs
lines 27-38): a present buffer shorter than the instance count yields
`InvalidBufferLength(name, instance_count, length)`. -/
def buffer_check (instance_count : ℕ) (length : Option ℕ) (name : String) :
    Except RendererError Unit :=
  match length with
  | some l =>
      if l < instance_count then
        Except.error (RendererError.InvalidBufferLength name instance_count l)
      else Except.ok ()
  | none => Except.ok ()

/-- `ParticleData::validate` (particles.rs lines 25-49): runs `buffer_check`
on `texture_transforms`, `colors`, `start_positions`, `start_velocities`, in
that order, propagating the first error. -/
def ParticleData.validate (d : ParticleData) : Except RendererError Unit :=
  match buffer_check d.count (d.texture_transforms.map List.length)
      "texture transforms" with
  | Except.error e => Except.error e
  | Except.ok _ =>
    match buffer_check d.count (d.colors.map List.length) "colors" with
    | Except.error e => Except.error e
    | Except.ok _ =>
      match buffer_check d.count (some d.start_positions.length)
          "start_positions" with
      | Except.error e => Except.error e
      | Except.ok _ =>
        match buffer_check d.count (some d.start_velocities.length)
            "start_velocities" with
        | Except.error e => Except.error e
        | Except.ok _ => Except.ok ()

/-- Substring test on character lists: does `p` occur starting at the head of
`s`? -/
def startsWithChars : List Char → List Char → Bool
  | _, [] => true
  | [], _ :: _ => false
  | a :: s, b :: p => a == b && startsWithChars s p

/-- Substring test on character lists: does `p` occur anywhere in `s`? -/
def hasSubstrChars : List Char → List Char → Bool
  | [], p => p.isEmpty
  | s@(_ :: rest), p => startsWithChars s p || hasSubstrChars rest p

/-- `s.find(pat).is_some()` of Rust `str`: `pat` occurs as a contiguous
substring of `s`.  Both the scanned sources and the scanned-for patterns are
ASCII, so the character-level test matches Rust's byte-level one. -/
def containsSubstr (s pat : String) : Bool :=
  hasSubstrChars s.toList pat.toList

/-- The data held by a GPU instance buffer, modelling
`InstanceBuffer::new_with_data(context, data)` by the `data` it uploads;
the particle code creates buffers of `Vec3` and of `Color` elements. -/
inductive BufferData where
  | vec3s (l : List Vec3)
  | colorData (l : List Color)
deriving DecidableEq, Repr

/-- A GPU vertex buffer, observable in this module only through
`vertex_count()` (particles.rs line 303). -/
structure VertexBuffer where
  vertexCount : ℕ
deriving DecidableEq, Repr

/-- A GPU element (index) buffer; the particle code only tests its presence
and hands it to the draw call, so it carries no observable data here. -/
structure ElementBuffer where
deriving DecidableEq, Repr

/-- Key membership in a string-keyed map represented as an association list
(`HashMap::contains_key`). -/
def hasKey {α : Type} (m : List (String × α)) (k : String) : Bool :=
  m.any (fun kv => kv.1 == k)

/-- Lookup in a string-keyed association list (`HashMap::get`). -/
def getKey {α : Type} (m : List (String × α)) (k : String) : Option α :=
  (m.find? (fun kv => kv.1 == k)).map (fun kv => kv.2)

/-- The `Particles` entity (particles.rs lines 69-81).  The `context` handle
is omitted: it only reaches buffer construction and program compilation,
which are modelled by their results. -/
structure Particles where
  vertex_buffers : List (String × VertexBuffer)
  instance_buffers : List (String × BufferData)
  index_buffer : Option ElementBuffer
  acceleration : Vec3
  instance_count : ℕ
  transformation : Mat4
  texture_transform : Mat3
  time : ℚ
deriving DecidableEq, Repr

/-- First row of a per-instance texture transform as built by
`Particles::update` (particles.rs lines 156-160): the `x` components of the
three columns. -/
def texRow1 (m : Mat3) : Vec3 :=
  ⟨m.x.x, m.y.x, m.z.x⟩

/-- Second row of a per-instance texture transform as built by
`Particles::update` (particles.rs lines 161-165): the `y` components of the
three columns. -/
def texRow2 (m : Mat3) : Vec3 :=
  ⟨m.x.y, m.y.y, m.z.y⟩

/-- `Particles::update` (particles.rs lines 138-182): stores `data.count()`
into `instance_count`, clears `instance_buffers`, and inserts
`start_position` and `start_velocity` always, `tex_transform_row1` and
`tex_transform_row2` when `texture_transforms` is present (repacking each
3x3 matrix into its first and second rows), and `instance_color` when
`colors` is present.  The debug-only `validate().expect(..)` assertion is
skipped in optimized builds and is not part of the state transformation.
The freshly built `HashMap` is represented as an association list whose keys
are pairwise distinct by construction. -/
def Particles.update (p : Particles) (data : ParticleData) : Particles :=
  { p with
    instance_count := data.count
    instance_buffers :=
      [("start_position", BufferData.vec3s data.start_positions),
       ("start_velocity", BufferData.vec3s data.start_velocities)]
      ++ (match data.texture_transforms with
          | some ts =>
              [("tex_transform_row1", BufferData.vec3s (ts.map texRow1)),
               ("tex_transform_row2", BufferData.vec3s (ts.map texRow2))]
          | none => [])
      ++ (match data.colors with
          | some cs => [("instance_color", BufferData.colorData cs)]
          | none => []) }

/-- The feature-flag lines composed by `Particles::vertex_shader_source`
(particles.rs lines 184-232), in emission order; `none` models the panic
raised when the fragment source declares `in vec3 tang;` without
`in vec3 bitang;`.  Each returned element is one `#define` line; the Rust
code concatenates exactly these lines (the colour arm emits its two or three
lines as one string literal). -/
def vertex_shader_defines (p : Particles) (fss : String) :
    Option (List String) :=
  let use_positions := containsSubstr fss "in vec3 pos;"
  let use_normals := containsSubstr fss "in vec3 nor;"
  let use_tangents := containsSubstr fss "in vec3 tang;"
  let use_uvs := containsSubstr fss "in vec2 uvs;"
  let use_colors := containsSubstr fss "in vec4 col;"
  if use_tangents && !containsSubstr fss "in vec3 bitang;" then none
  else
    some
      ((if use_positions then ["#define USE_POSITIONS\n"] else [])
        ++ (if use_normals then ["#define USE_NORMALS\n"] else [])
        ++ (if use_tangents then ["#define USE_TANGENTS\n"] else [])
        ++ (if use_uvs then ["#define USE_UVS\n"] else [])
        ++ (if use_colors then
              if hasKey p.instance_buffers "instance_color"
                  && hasKey p.vertex_buffers "color" then
                ["#define USE_COLORS\n", "#define USE_VERTEX_COLORS\n",
                 "#define USE_INSTANCE_COLORS\n"]
              else if hasKey p.instance_buffers "instance_color" then
                ["#define USE_COLORS\n", "#define USE_INSTANCE_COLORS\n"]
              else
                ["#define USE_COLORS\n", "#define USE_VERTEX_COLORS\n"]
            else [])
        ++ (if hasKey p.instance_buffers "tex_transform_row1" then
              ["#define USE_INSTANCE_TEXTURE_TRANSFORMATION\n"]
            else []))

/-- `Particles::vertex_shader_source` (particles.rs lines 184-232): the
composed vertex source is the fixed particle marker, the feature-flag lines,
then the two files included by `include_str!` — `core/shared.frag` and
`geometry/shaders/mesh.vert`, whose contents are not part of this crate
slice and are passed in as `sharedFrag` and `meshVert`. -/
def vertex_shader_source (p : Particles) (sharedFrag meshVert : String)
    (fss : String) : Option String :=
  (vertex_shader_defines p fss).map
    (fun ds => "#define PARTICLES\n" ++ String.join ds ++ sharedFrag ++ meshVert)

/-- A compiled GPU program, observable in `render_with_material` only through
`requires_attribute(name)` and through whether a given uniform is declared
(what `use_uniform_if_required` consults). -/
structure Program where
  requiresUniform : String → Bool
  requiresAttribute : String → Bool

/-- One observable GPU action of `render_with_material`, in call order:
uniform binds (recorded by name; uniform values are GPU-side floats and are
not inspected by any claim), attribute binds, and the draw call. -/
inductive Event where
  | materialUniforms
  | uniform (name : String)
  | vertexAttr (name : String)
  | instanceAttr (name : String)
  | drawElementsInstanced (instances : ℕ)
  | drawArraysInstanced (vertexCount : ℕ) (instances : ℕ)
deriving DecidableEq, Repr

/-- The panics `render_with_material` can raise: the tangent-without-
bitangent contract violation in `vertex_shader_source`, the `unwrap` of
`transformation.invert()`, a required attribute whose buffer is missing, and
the `unwrap` of the `position` vertex buffer in the non-indexed draw. -/
inductive Panic where
  | tangWithoutBitang
  | nonInvertibleTransformation
  | missingVertexBuffer (name : String)
  | missingInstanceBuffer (name : String)
  | missingPositionBuffer
deriving DecidableEq, Repr

/-- The attribute-binding loops of `render_with_material` (particles.rs
lines 266-290): for each candidate name, if the program requires it, bind it
from `buffers` or panic with `missing name`. -/
def bindAttrsFrom {α : Type} (buffers : List (String × α)) (prog : Program)
    (mk : String → Event) (missing : String → Panic) :
    List String → Except Panic (List Event)
  | [] => Except.ok []
  | n :: rest =>
      if prog.requiresAttribute n then
        match getKey buffers n with
        | some _ =>
            match bindAttrsFrom buffers prog mk missing rest with
            | Except.ok evs => Except.ok (mk n :: evs)
            | Except.error e => Except.error e
        | none => Except.error (missing n)
      else bindAttrsFrom buffers prog mk missing rest

/-- `Particles::render_with_material` (particles.rs lines 240-309).
`fragSrc` models `material.fragment_shader_source(uses_color, lights)` as a
function of its `uses_color` argument (the light list is opaque); `prog`
models the program the context compiles (or fetches cached) for the composed
source pair — compilation itself is external, so its success is part of the
`prog` parameter.  Returns the ordered list of observable GPU actions, or
the first panic.  Note the order inherited from the source: the
`textureTransform` conditional bind happens before the argument of the
`normalMatrix` bind is evaluated, and that argument — the inverse of
`transformation` — is computed (and can panic) whether or not the program
declares `normalMatrix`. -/
def Particles.render_with_material (p : Particles)
    (sharedFrag meshVert : String) (fragSrc : Bool → String)
    (prog : Program) : Except Panic (List Event) :=
  let fss := fragSrc (hasKey p.vertex_buffers "color"
    || hasKey p.instance_buffers "instance_color")
  match vertex_shader_source p sharedFrag meshVert fss with
  | none => Except.error Panic.tangWithoutBitang
  | some _ =>
    let evs := [Event.materialUniforms,
      Event.uniform "viewProjection", Event.uniform "modelMatrix",
      Event.uniform "acceleration", Event.uniform "time"]
    let evs := if prog.requiresUniform "textureTransform" then
        evs ++ [Event.uniform "textureTransform"] else evs
    match p.transformation.invert with
    | none => Except.error Panic.nonInvertibleTransformation
    | some inv =>
      let _normalMatrix := inv.transpose
      let evs := if prog.requiresUniform "normalMatrix" then
          evs ++ [Event.uniform "normalMatrix"] else evs
      match bindAttrsFrom p.vertex_buffers prog Event.vertexAttr
          Panic.missingVertexBuffer
          ["position", "normal", "tangent", "color", "uv_coordinates"] with
      | Except.error e => Except.error e
      | Except.ok vevs =>
        match bindAttrsFrom p.instance_buffers prog Event.instanceAttr
            Panic.missingInstanceBuffer
            ["start_position", "start_velocity", "tex_transform_row1",
             "tex_transform_row2", "instance_color"] with
        | Except.error e => Except.error e
        | Except.ok ievs =>
          match p.index_buffer with
          | some _ =>
              Except.ok (evs ++ vevs ++ ievs
                ++ [Event.drawElementsInstanced p.instance_count])
          | none =>
              match getKey p.vertex_buffers "position" with
              | none => Except.error Panic.missingPositionBuffer
              | some vb =>
                  Except.ok (evs ++ vevs ++ ievs
                    ++ [Event.drawArraysInstanced vb.vertexCount
                          p.instance_count])

/-- Is an event a draw call? -/
def Event.isDraw : Event → Bool
  | Event.drawElementsInstanced _ => true
  | Event.drawArraysInstanced _ _ => true
  | _ => false

/-- The draw calls among a list of events, in order. -/
def drawsOf (evs : List Event) : List Event :=
  evs.filter Event.isDraw

/-! ### Helper lemmas about the validator -/

theorem buffer_check_none (ic : ℕ) (n : String) :
    buffer_check ic none n = Except.ok () := rfl

theorem buffer_check_lt (ic a : ℕ) (n : String) (h : a < ic) :
    buffer_check ic (some a) n
      = Except.error (RendererError.InvalidBufferLength n ic a) := by
  simp [buffer_check, h]

theorem buffer_check_ge (ic a : ℕ) (n : String) (h : ic ≤ a) :
    buffer_check ic (some a) n = Except.ok () := by
  simp [buffer_check, Nat.not_lt.mpr h]

theorem buffer_check_error_shape (ic : ℕ) (l : Option ℕ) (n : String)
    (e : RendererError) (h : buffer_check ic l n = Except.error e) :
    ∃ a, l = some a ∧ a < ic
      ∧ e = RendererError.InvalidBufferLength n ic a := by
  cases l with
  | none => simp [buffer_check] at h
  | some a =>
      by_cases hlt : a < ic
      · refine ⟨a, rfl, hlt, ?_⟩
        rw [buffer_check_lt ic a n hlt] at h
        exact (Except.error.inj h).symm
      · rw [buffer_check_ge ic a n (Nat.le_of_not_lt hlt)] at h
        cases h

/-- The zero vector, a convenient concrete `Vec3`. -/
def vZero : Vec3 := ⟨0, 0, 0⟩

/-- Concrete data with `start_velocities` longer than `start_positions`:
one position, two velocities. -/
def dVelLonger : ParticleData := ⟨[vZero], [vZero, vZero], none, none⟩

/-- Concrete data with `start_velocities` shorter than `start_positions`:
two positions, one velocity. -/
def dVelShorter : ParticleData := ⟨[vZero, vZero], [vZero], none, none⟩

/-- C1 counterexample: a `ParticleData` whose `start_velocities` length
differs from (is greater than) the `start_positions` length, on which
`validate()` nonetheless succeeds — refuting the claim that any length
difference yields an error. -/
theorem validate_accepts_longer_velocities :
    dVelLonger.start_velocities.length ≠ dVelLonger.start_positions.length
      ∧ dVelLonger.validate = Except.ok () := by
  constructor
  · decide
  · rfl

/-- C1 (amended): `validate()` enforces only a lower bound on
`start_velocities`: whenever `start_velocities` is strictly shorter than
`start_positions`, `validate()` returns an error; and when
`start_velocities` is at least as long (and the optional buffers are long
enough), `validate()` succeeds, so a longer `start_velocities` is not
rejected. -/
theorem validate_velocities_lower_bound_only :
    (∀ d : ParticleData,
      d.start_velocities.length < d.start_positions.length →
      ∃ n e a, d.validate
        = Except.error (RendererError.InvalidBufferLength n e a))
    ∧ (∀ d : ParticleData,
      (∀ ts, d.texture_transforms = some ts → d.count ≤ ts.length) →
      (∀ cs, d.colors = some cs → d.count ≤ cs.length) →
      d.count ≤ d.start_velocities.length →
      d.validate = Except.ok ()) := by
  constructor
  · intro d h
    unfold ParticleData.validate
    split
    · rename_i e heq
      obtain ⟨a, -, -, rfl⟩ := buffer_check_error_shape _ _ _ _ heq
      exact ⟨_, _, _, rfl⟩
    · split
      · rename_i e heq
        obtain ⟨a, -, -, rfl⟩ := buffer_check_error_shape _ _ _ _ heq
        exact ⟨_, _, _, rfl⟩
      · split
        · rename_i e heq
          obtain ⟨a, -, -, rfl⟩ := buffer_check_error_shape _ _ _ _ heq
          exact ⟨_, _, _, rfl⟩
        · split
          · rename_i e heq
            obtain ⟨a, -, -, rfl⟩ := buffer_check_error_shape _ _ _ _ heq
            exact ⟨_, _, _, rfl⟩
          · rename_i heq
            rw [buffer_check_lt d.count d.start_velocities.length
              "start_velocities" h] at heq
            cases heq
  · intro d h1 h2 h3
    have e1 : buffer_check d.count (d.texture_transforms.map List.length)
        "texture transforms" = Except.ok () := by
      cases htt : d.texture_transforms with
      | none => rfl
      | some ts =>
          simpa using buffer_check_ge _ _ "texture transforms" (h1 ts htt)
    have e2 : buffer_check d.count (d.colors.map List.length) "colors"
        = Except.ok () := by
      cases hc : d.colors with
      | none => rfl
      | some cs => simpa using buffer_check_ge _ _ "colors" (h2 cs hc)
    have e3 : buffer_check d.count (some d.start_positions.length)
        "start_positions" = Except.ok () :=
      buffer_check_ge _ _ _ (Nat.le_refl _)
    have e4 : buffer_check d.count (some d.start_velocities.length)
        "start_velocities" = Except.ok () :=
      buffer_check_ge _ _ _ h3
    simp [ParticleData.validate, e1, e2, e3, e4]

/-- C1 witness: the amended theorem applied at concrete inputs — data with a
shorter velocity list is rejected, data with a longer velocity list is
accepted. -/
theorem validate_velocities_lower_bound_only_witness :
    (∃ n e a, dVelShorter.validate
      = Except.error (RendererError.InvalidBufferLength n e a))
    ∧ dVelLonger.validate = Except.ok () :=
  ⟨validate_velocities_lower_bound_only.1 dVelShorter (by decide),
   validate_velocities_lower_bound_only.2 dVelLonger
     (fun ts hts => Option.noConfusion hts)
     (fun cs hcs => Option.noConfusion hcs) (by decide)⟩

/-- Three distinct positions and velocities, and two colours: the concrete
scenario of C2 (`start_positions` of length 3, `start_velocities` of length
3, `colors = Some` of length 2). -/
def dColorsShort : ParticleData :=
  ⟨[⟨1, 0, 0⟩, ⟨0, 1, 0⟩, ⟨0, 0, 1⟩],
   [⟨1, 1, 0⟩, ⟨0, 1, 1⟩, ⟨1, 0, 1⟩],
   none,
   some [⟨255, 0, 0, 255⟩, ⟨0, 255, 0, 255⟩]⟩

/-- C2: whenever a present optional buffer (`texture_transforms` or
`colors`) is strictly shorter than `start_positions`, `validate()` returns
`InvalidBufferLength` naming a short optional buffer, with `expected` the
instance count and `actual` that buffer's length; and on the concrete
scenario (3 positions, 3 velocities, 2 colours) it returns exactly
`InvalidBufferLength("colors", 3, 2)`. -/
theorem validate_short_optional_buffer_named :
    (∀ d : ParticleData,
      ((∃ ts, d.texture_transforms = some ts ∧ ts.length < d.count)
        ∨ (∃ cs, d.colors = some cs ∧ cs.length < d.count)) →
      ∃ n a, d.validate
          = Except.error (RendererError.InvalidBufferLength n d.count a)
        ∧ a < d.count
        ∧ ((n = "texture transforms"
              ∧ ∃ ts, d.texture_transforms = some ts ∧ a = ts.length)
           ∨ (n = "colors" ∧ ∃ cs, d.colors = some cs ∧ a = cs.length)))
    ∧ dColorsShort.validate
        = Except.error (RendererError.InvalidBufferLength "colors" 3 2) := by
  constructor
  · intro d h
    by_cases hPT : ∃ ts, d.texture_transforms = some ts
        ∧ ts.length < d.count
    · obtain ⟨ts, htt, hlt⟩ := hPT
      have c1 : buffer_check d.count (d.texture_transforms.map List.length)
          "texture transforms"
          = Except.error (RendererError.InvalidBufferLength
              "texture transforms" d.count ts.length) := by
        rw [htt]
        exact buffer_check_lt d.count ts.length "texture transforms" hlt
      have hv : d.validate
          = Except.error (RendererError.InvalidBufferLength
              "texture transforms" d.count ts.length) := by
        simp [ParticleData.validate, c1]
      exact ⟨"texture transforms", ts.length, hv, hlt,
        Or.inl ⟨rfl, ts, htt, rfl⟩⟩
    · have hc : ∃ cs, d.colors = some cs ∧ cs.length < d.count := by
        rcases h with hL | hR
        · exact absurd hL hPT
        · exact hR
      obtain ⟨cs, hcs, hlt⟩ := hc
      have c1 : buffer_check d.count (d.texture_transforms.map List.length)
          "texture transforms" = Except.ok () := by
        cases htt2 : d.texture_transforms with
        | none => rfl
        | some ts =>
            exact buffer_check_ge d.count ts.length "texture transforms"
              (Nat.le_of_not_lt (fun hl => hPT ⟨ts, htt2, hl⟩))
      have c2 : buffer_check d.count (d.colors.map List.length) "colors"
          = Except.error (RendererError.InvalidBufferLength "colors"
              d.count cs.length) := by
        rw [hcs]
        exact buffer_check_lt d.count cs.length "colors" hlt
      have hv : d.validate
          = Except.error (RendererError.InvalidBufferLength "colors"
              d.count cs.length) := by
        simp [ParticleData.validate, c1, c2]
      exact ⟨"colors", cs.length, hv, hlt, Or.inr ⟨rfl, cs, hcs, rfl⟩⟩
  · rfl

/-- C2 witness: the universal part applied to data whose colour buffer is
one element short of its two instances. -/
theorem validate_short_optional_buffer_named_witness :
    ∃ n a, dColorsShort.validate
        = Except.error
            (RendererError.InvalidBufferLength n dColorsShort.count a)
      ∧ a < dColorsShort.count
      ∧ ((n = "texture transforms"
            ∧ ∃ ts, dColorsShort.texture_transforms = some ts
              ∧ a = ts.length)
         ∨ (n = "colors"
            ∧ ∃ cs, dColorsShort.colors = some cs ∧ a = cs.length)) :=
  validate_short_optional_buffer_named.1 dColorsShort
    (Or.inr ⟨[⟨255, 0, 0, 255⟩, ⟨0, 255, 0, 255⟩], rfl, by decide⟩)

/-! ### Shader variant composition -/

/-- Membership in a conditional list segment of the composed define list. -/
theorem mem_ite_nil {p : Prop} [Decidable p] {l : List String} {x : String} :
    (x ∈ if p then l else []) ↔ p ∧ x ∈ l := by
  split
  · rename_i hp; simp [hp]
  · rename_i hp; simp [hp]

/-- A `Particles` with no buffers at all and default scalar state. -/
def pEmpty : Particles :=
  ⟨[], [], none, vZero, 0, Mat4.identity, Mat3.identity, 0⟩

/-- C3: for every buffer state and every fragment-stage source containing
`in vec3 tang;` but not `in vec3 bitang;`, vertex-shader-source composition
panics (models the `panic!` in particles.rs lines 203-205), whatever the
included template files are. -/
theorem vertex_shader_source_tang_requires_bitang
    (p : Particles) (sharedFrag meshVert fss : String)
    (htang : containsSubstr fss "in vec3 tang;" = true)
    (hbit : containsSubstr fss "in vec3 bitang;" = false) :
    vertex_shader_source p sharedFrag meshVert fss = none := by
  simp [vertex_shader_source, vertex_shader_defines, htang, hbit]

/-- C3 witness: a fragment source that is exactly the tangent declaration
has the tangent signal and no bitangent signal, and composition fails on
it. -/
theorem vertex_shader_source_tang_requires_bitang_witness :
    containsSubstr "in vec3 tang;" "in vec3 tang;" = true
    ∧ containsSubstr "in vec3 tang;" "in vec3 bitang;" = false
    ∧ vertex_shader_source pEmpty "SHARED" "MESH" "in vec3 tang;" = none :=
  ⟨by decide, by decide,
   vertex_shader_source_tang_requires_bitang pEmpty "SHARED" "MESH"
     "in vec3 tang;" (by decide) (by decide)⟩

/-- A `Particles` that holds a `tex_transform_row1` instance buffer (as any
entity updated with `texture_transforms` present does) and no other buffer. -/
def pTexRow : Particles :=
  ⟨[], [("tex_transform_row1", BufferData.vec3s [])], none, vZero, 0,
   Mat4.identity, Mat3.identity, 0⟩

/-- A fragment source with exactly the position and uv signals. -/
def fragPosUvs : String := "in vec3 pos;\nin vec2 uvs;\n"

/-- C4 counterexample: a fragment source with exactly the position and uv
signals, composed against a state holding a `tex_transform_row1` buffer,
yields the instance-texture-transform flag in addition to the position and
uv flags — refuting the claim for that state. -/
theorem vertex_shader_defines_pos_uvs_counterexample :
    containsSubstr fragPosUvs "in vec3 pos;" = true
    ∧ containsSubstr fragPosUvs "in vec2 uvs;" = true
    ∧ containsSubstr fragPosUvs "in vec3 nor;" = false
    ∧ containsSubstr fragPosUvs "in vec3 tang;" = false
    ∧ containsSubstr fragPosUvs "in vec4 col;" = false
    ∧ vertex_shader_defines pTexRow fragPosUvs
      = some ["#define USE_POSITIONS\n", "#define USE_UVS\n",
              "#define USE_INSTANCE_TEXTURE_TRANSFORMATION\n"] := by
  refine ⟨by decide, by decide, by decide, by decide, by decide, ?_⟩
  decide

/-- C4 (amended): for a fragment source containing the position and uv
signals and none of the normal, tangent, or colour signals, the composed
flag list is exactly positions and uvs, plus the instance-texture-transform
flag exactly when the state holds a `tex_transform_row1` instance buffer (no
colour, tangent, or normal flag is ever present). -/
theorem vertex_shader_defines_pos_uvs_only
    (p : Particles) (fss : String)
    (hpos : containsSubstr fss "in vec3 pos;" = true)
    (huvs : containsSubstr fss "in vec2 uvs;" = true)
    (hnor : containsSubstr fss "in vec3 nor;" = false)
    (htang : containsSubstr fss "in vec3 tang;" = false)
    (hcol : containsSubstr fss "in vec4 col;" = false) :
    vertex_shader_defines p fss
      = some (["#define USE_POSITIONS\n", "#define USE_UVS\n"]
          ++ (if hasKey p.instance_buffers "tex_transform_row1" then
                ["#define USE_INSTANCE_TEXTURE_TRANSFORMATION\n"]
              else [])) := by
  simp [vertex_shader_defines, hpos, huvs, hnor, htang, hcol]

/-- C4 witness: the amended theorem applied to the concrete state holding a
`tex_transform_row1` buffer and the concrete position-and-uv fragment
source. -/
theorem vertex_shader_defines_pos_uvs_only_witness :
    vertex_shader_defines pTexRow fragPosUvs
      = some (["#define USE_POSITIONS\n", "#define USE_UVS\n"]
          ++ (if hasKey pTexRow.instance_buffers "tex_transform_row1" then
                ["#define USE_INSTANCE_TEXTURE_TRANSFORMATION\n"]
              else [])) :=
  vertex_shader_defines_pos_uvs_only pTexRow fragPosUvs
    (by decide) (by decide) (by decide) (by decide) (by decide)

/-- C5: whenever composition succeeds, the colour flags of the output are a
total function of buffer availability.  With the colour signal present, the
`USE_COLORS` flag is always emitted, the vertex-colour flag is emitted
exactly when a `color` vertex buffer is present or no `instance_color`
instance buffer is present (the three mutually exclusive variants: both
buffers → both flags, instance buffer alone → instance flag alone,
otherwise → vertex flag alone), and the instance-colour flag exactly when
the `instance_color` buffer is present; with the colour signal absent, no
colour flag is emitted. -/
theorem vertex_shader_defines_color_variants
    (p : Particles) (fss : String) (ds : List String)
    (h : vertex_shader_defines p fss = some ds) :
    (containsSubstr fss "in vec4 col;" = true →
      ("#define USE_COLORS\n" ∈ ds)
      ∧ (("#define USE_VERTEX_COLORS\n" ∈ ds)
          ↔ (hasKey p.vertex_buffers "color" = true
             ∨ hasKey p.instance_buffers "instance_color" = false))
      ∧ (("#define USE_INSTANCE_COLORS\n" ∈ ds)
          ↔ hasKey p.instance_buffers "instance_color" = true))
    ∧ (containsSubstr fss "in vec4 col;" = false →
      ("#define USE_COLORS\n" ∉ ds)
      ∧ ("#define USE_VERTEX_COLORS\n" ∉ ds)
      ∧ ("#define USE_INSTANCE_COLORS\n" ∉ ds)) := by
  simp only [vertex_shader_defines] at h
  by_cases htb : (containsSubstr fss "in vec3 tang;"
      && !containsSubstr fss "in vec3 bitang;") = true
  · rw [if_pos htb] at h
    exact Option.noConfusion h
  · rw [if_neg htb] at h
    injection h with hds
    subst hds
    constructor
    · intro hcol
      cases hic : hasKey p.instance_buffers "instance_color" <;>
        cases hvc : hasKey p.vertex_buffers "color" <;>
          simp [hcol, hic, hvc, mem_ite_nil]
    · intro hcol
      simp [hcol, mem_ite_nil]

/-- A `Particles` holding an `instance_color` instance buffer and no
`color` vertex buffer. -/
def pInstColor : Particles :=
  ⟨[], [("instance_color", BufferData.colorData [])], none, vZero, 0,
   Mat4.identity, Mat3.identity, 0⟩

/-- C5 witness: the theorem applied to a state with an `instance_color`
buffer and no `color` vertex buffer and a fragment source carrying the
colour signal: the instance-colour variant alone is selected. -/
theorem vertex_shader_defines_color_variants_witness :
    ("#define USE_COLORS\n"
        ∈ ["#define USE_COLORS\n", "#define USE_INSTANCE_COLORS\n"])
    ∧ (("#define USE_VERTEX_COLORS\n"
        ∈ ["#define USE_COLORS\n", "#define USE_INSTANCE_COLORS\n"])
        ↔ (hasKey pInstColor.vertex_buffers "color" = true
           ∨ hasKey pInstColor.instance_buffers "instance_color" = false))
    ∧ (("#define USE_INSTANCE_COLORS\n"
        ∈ ["#define USE_COLORS\n", "#define USE_INSTANCE_COLORS\n"])
        ↔ hasKey pInstColor.instance_buffers "instance_color" = true) :=
  (vertex_shader_defines_color_variants pInstColor "in vec4 col;"
    ["#define USE_COLORS\n", "#define USE_INSTANCE_COLORS\n"]
    (by decide)).1 (by decide)

/-! ### Instance buffer lifecycle -/

/-- C6: when `texture_transforms` is present in the data passed to `update`,
the `tex_transform_row1` buffer holds, instance by instance and in order,
the first row of each 3x3 transform (the `x` components of its three
columns) and `tex_transform_row2` the second row (the `y` components). -/
theorem update_repacks_texture_transform_rows
    (p : Particles) (d : ParticleData) (ts : List Mat3)
    (h : d.texture_transforms = some ts) :
    getKey (p.update d).instance_buffers "tex_transform_row1"
      = some (BufferData.vec3s (ts.map texRow1))
    ∧ getKey (p.update d).instance_buffers "tex_transform_row2"
      = some (BufferData.vec3s (ts.map texRow2)) := by
  cases hc : d.colors <;> simp [Particles.update, h, hc, getKey]

/-- A concrete 3x3 texture transform with nine distinct entries, columns
`x = (1,2,3)`, `y = (4,5,6)`, `z = (7,8,9)`. -/
def mDistinct : Mat3 := ⟨⟨1, 2, 3⟩, ⟨4, 5, 6⟩, ⟨7, 8, 9⟩⟩

/-- Concrete data carrying one texture transform. -/
def dTex : ParticleData := ⟨[vZero], [vZero], some [mDistinct], none⟩

/-- C6 witness: updating with the concrete transform stores its first row
`(1,4,7)` in `tex_transform_row1` and its second row `(2,5,8)` in
`tex_transform_row2`. -/
theorem update_repacks_texture_transform_rows_witness :
    getKey (pEmpty.update dTex).instance_buffers "tex_transform_row1"
      = some (BufferData.vec3s [⟨1, 4, 7⟩])
    ∧ getKey (pEmpty.update dTex).instance_buffers "tex_transform_row2"
      = some (BufferData.vec3s [⟨2, 5, 8⟩]) :=
  update_repacks_texture_transform_rows pEmpty dTex [mDistinct] rfl

/-- C8: `update` fully replaces the instance-buffer set: for every prior
state, the keys after `update(data)` are exactly `start_position` and
`start_velocity`, plus the two texture-transform rows exactly when
`data.texture_transforms` is present, plus `instance_color` exactly when
`data.colors` is present; `instance_count` becomes `data.count()`; and in
particular an update without colours leaves no `instance_color` buffer,
whatever the prior state held. -/
theorem update_rebuilds_instance_buffer_set
    (p : Particles) (d : ParticleData) :
    ((p.update d).instance_buffers.map Prod.fst
      = ["start_position", "start_velocity"]
        ++ (match d.texture_transforms with
            | some _ => ["tex_transform_row1", "tex_transform_row2"]
            | none => [])
        ++ (match d.colors with
            | some _ => ["instance_color"]
            | none => []))
    ∧ (p.update d).instance_count = d.count
    ∧ (d.colors = none →
        hasKey (p.update d).instance_buffers "instance_color" = false) := by
  refine ⟨?_, rfl, ?_⟩
  · cases ht : d.texture_transforms <;> cases hc : d.colors <;>
      simp [Particles.update, ht, hc]
  · intro hc
    cases ht : d.texture_transforms <;>
      simp [Particles.update, ht, hc, hasKey]

/-- C8 witness: updating a state that holds an `instance_color` buffer with
colour-free data removes that buffer. -/
theorem update_rebuilds_instance_buffer_set_witness :
    hasKey (pInstColor.update dTex).instance_buffers "instance_color"
      = false :=
  (update_rebuilds_instance_buffer_set pInstColor dTex).2.2 rfl

/-- C10: `update` modifies only the instance buffers and the instance
count — the acceleration, transformation, texture transform, time, vertex
buffers, and index buffer of the entity are unchanged. -/
theorem update_preserves_non_instance_fields
    (p : Particles) (d : ParticleData) :
    (p.update d).acceleration = p.acceleration
    ∧ (p.update d).transformation = p.transformation
    ∧ (p.update d).texture_transform = p.texture_transform
    ∧ (p.update d).time = p.time
    ∧ (p.update d).vertex_buffers = p.vertex_buffers
    ∧ (p.update d).index_buffer = p.index_buffer :=
  ⟨rfl, rfl, rfl, rfl, rfl, rfl⟩

/-! ### Render orchestration -/

theorem bindAttrsFrom_events {α : Type} (buffers : List (String × α))
    (prog : Program) (mk : String → Event) (missing : String → Panic) :
    ∀ (names : List String) (evs : List Event),
      bindAttrsFrom buffers prog mk missing names = Except.ok evs →
      ∀ e ∈ evs, ∃ n, n ∈ names ∧ e = mk n := by
  intro names
  induction names with
  | nil =>
      intro evs h e he
      simp only [bindAttrsFrom] at h
      injection h with h'
      subst h'
      cases he
  | cons n rest ih =>
      intro evs h e he
      simp only [bindAttrsFrom] at h
      split at h
      · split at h
        · split at h
          · rename_i evs2 heq2
            injection h with h'
            subst h'
            rcases List.mem_cons.mp he with rfl | he2
            · exact ⟨n, List.mem_cons_self n rest, rfl⟩
            · obtain ⟨n2, hn2, rfl⟩ := ih evs2 heq2 e he2
              exact ⟨n2, List.mem_cons_of_mem n hn2, rfl⟩
          · exact Except.noConfusion h
        · exact Except.noConfusion h
      · obtain ⟨n2, hn2, rfl⟩ := ih evs h e he
        exact ⟨n2, List.mem_cons_of_mem n hn2, rfl⟩

theorem bindAttrsFrom_no_draws {α : Type} (buffers : List (String × α))
    (prog : Program) (mk : String → Event) (missing : String → Panic)
    (names : List String) (evs : List Event)
    (h : bindAttrsFrom buffers prog mk missing names = Except.ok evs)
    (hmk : ∀ n, Event.isDraw (mk n) = false) :
    drawsOf evs = [] := by
  rw [drawsOf, List.filter_eq_nil_iff]
  intro e he
  obtain ⟨n, -, rfl⟩ := bindAttrsFrom_events buffers prog mk missing
    names evs h e he
  simp [hmk n]


/-- C7: on every successful `render_with_material` call, exactly one
instanced draw is dispatched: with an index buffer present it is the indexed
instanced draw at the current `instance_count`; without one it is the
non-indexed instanced draw whose vertex count is the vertex count of the
`position` vertex buffer, at the same instance count. -/
theorem render_dispatches_exactly_one_draw
    (p : Particles) (sharedFrag meshVert : String) (fragSrc : Bool → String)
    (prog : Program) (evs : List Event)
    (h : p.render_with_material sharedFrag meshVert fragSrc prog
      = Except.ok evs) :
    (p.index_buffer.isSome = true →
      drawsOf evs = [Event.drawElementsInstanced p.instance_count])
    ∧ (p.index_buffer = none →
      ∃ vb, getKey p.vertex_buffers "position" = some vb
        ∧ drawsOf evs
          = [Event.drawArraysInstanced vb.vertexCount p.instance_count]) := by
  simp only [Particles.render_with_material] at h
  split at h
  · exact Except.noConfusion h
  · split at h
    · exact Except.noConfusion h
    · split at h
      · exact Except.noConfusion h
      · rename_i vevs heqv
        split at h
        · exact Except.noConfusion h
        · rename_i ievs heqi
          have hv2 : List.filter Event.isDraw vevs = [] :=
            bindAttrsFrom_no_draws _ _ _ _ _ _ heqv (fun n => rfl)
          have hi2 : List.filter Event.isDraw ievs = [] :=
            bindAttrsFrom_no_draws _ _ _ _ _ _ heqi (fun n => rfl)
          split at h
          · rename_i ib hib
            injection h with h'
            subst h'
            constructor
            · intro _
              cases hb1 : prog.requiresUniform "textureTransform" <;>
                cases hb2 : prog.requiresUniform "normalMatrix" <;>
                  simp [hb1, hb2, drawsOf, List.filter_append, hv2, hi2,
                    Event.isDraw]
            · intro hnone
              rw [hnone] at hib
              exact Option.noConfusion hib
          · rename_i hib
            split at h
            · exact Except.noConfusion h
            · rename_i vb hvb
              injection h with h'
              subst h'
              constructor
              · intro hsome
                rw [hib] at hsome
                exact Bool.noConfusion hsome
              · intro _
                refine ⟨vb, hvb, ?_⟩
                cases hb1 : prog.requiresUniform "textureTransform" <;>
                  cases hb2 : prog.requiresUniform "normalMatrix" <;>
                    simp [hb1, hb2, drawsOf, List.filter_append, hv2, hi2,
                      Event.isDraw]

/-- A program that declares no optional uniform and requires no attribute. -/
def progNoReq : Program := ⟨fun _ => false, fun _ => false⟩

/-- A `Particles` with a 7-vertex `position` buffer, an index buffer, four
instances, and the identity transformation. -/
def pIndexed : Particles :=
  ⟨[("position", ⟨7⟩)], [], some ⟨⟩, vZero, 4, Mat4.identity,
   Mat3.identity, 0⟩

/-- The inverse of the identity transformation is the identity (rational
arithmetic evaluated by `norm_num`, since `Rat` operations do not reduce
definitionally). -/
theorem invert_identity : Mat4.invert Mat4.identity = some Mat4.identity := by
  norm_num [Mat4.invert, Mat4.det, det3, Mat4.identity]

/-- Evaluation of a concrete render call: an indexed four-instance entity,
an empty fragment source, and a program requiring nothing yields the base
uniform binds followed by the indexed instanced draw. -/
theorem render_pIndexed_eval :
    pIndexed.render_with_material "SHARED" "MESH" (fun _ => "") progNoReq
      = Except.ok [Event.materialUniforms, Event.uniform "viewProjection",
          Event.uniform "modelMatrix", Event.uniform "acceleration",
          Event.uniform "time", Event.drawElementsInstanced 4] := by
  simp [Particles.render_with_material, vertex_shader_source,
    vertex_shader_defines, containsSubstr, hasSubstrChars, startsWithChars,
    pIndexed, progNoReq, invert_identity, bindAttrsFrom, getKey, hasKey]

/-- C7 witness: a concrete successful render against an indexed geometry
dispatches exactly the indexed instanced draw with the current instance
count. -/
theorem render_dispatches_exactly_one_draw_witness :
    (pIndexed.index_buffer.isSome = true →
      drawsOf [Event.materialUniforms, Event.uniform "viewProjection",
        Event.uniform "modelMatrix", Event.uniform "acceleration",
        Event.uniform "time", Event.drawElementsInstanced 4]
        = [Event.drawElementsInstanced pIndexed.instance_count])
    ∧ (pIndexed.index_buffer = none →
      ∃ vb, getKey pIndexed.vertex_buffers "position" = some vb
        ∧ drawsOf [Event.materialUniforms, Event.uniform "viewProjection",
            Event.uniform "modelMatrix", Event.uniform "acceleration",
            Event.uniform "time", Event.drawElementsInstanced 4]
          = [Event.drawArraysInstanced vb.vertexCount
              pIndexed.instance_count]) :=
  render_dispatches_exactly_one_draw pIndexed "SHARED" "MESH"
    (fun _ => "") progNoReq
    [Event.materialUniforms, Event.uniform "viewProjection",
     Event.uniform "modelMatrix", Event.uniform "acceleration",
     Event.uniform "time", Event.drawElementsInstanced 4]
    render_pIndexed_eval

/-- The all-zero 4x4 matrix, a non-invertible transformation. -/
def mZero : Mat4 :=
  ⟨⟨0, 0, 0, 0⟩, ⟨0, 0, 0, 0⟩, ⟨0, 0, 0, 0⟩, ⟨0, 0, 0, 0⟩⟩

/-- The zero matrix has determinant zero, so inversion fails. -/
theorem invert_mZero : Mat4.invert mZero = none := by
  norm_num [Mat4.invert, Mat4.det, det3, mZero]

/-- A `Particles` like `pIndexed` but with the non-invertible zero matrix as
its transformation. -/
def pSingular : Particles :=
  ⟨[("position", ⟨7⟩)], [], some ⟨⟩, vZero, 4, mZero, Mat3.identity, 0⟩

/-- C9 counterexample: a render call against a program that does not
declare `normalMatrix`, on an entity whose transformation is not
invertible, fails (with the inversion panic) instead of succeeding —
because the normal-matrix argument `transformation.invert().unwrap()` is
evaluated before `use_uniform_if_required` consults the program. -/
theorem render_singular_without_normal_matrix_panics :
    progNoReq.requiresUniform "normalMatrix" = false
    ∧ Mat4.invert pSingular.transformation = none
    ∧ pSingular.render_with_material "SHARED" "MESH" (fun _ => "") progNoReq
        = Except.error Panic.nonInvertibleTransformation := by
  refine ⟨rfl, invert_mZero, ?_⟩
  simp [Particles.render_with_material, vertex_shader_source,
    vertex_shader_defines, containsSubstr, hasSubstrChars, startsWithChars,
    pSingular, progNoReq, invert_mZero, hasKey]

/-- C9 (amended): on every successful render, the `textureTransform` and
`normalMatrix` uniforms are bound exactly when the compiled program
declares them — but the argument of the `normalMatrix` bind is evaluated
unconditionally, so a render can only succeed when the transformation is
invertible, whether or not the program declares `normalMatrix`. -/
theorem render_optional_uniforms_conditional
    (p : Particles) (sharedFrag meshVert : String) (fragSrc : Bool → String)
    (prog : Program) (evs : List Event)
    (h : p.render_with_material sharedFrag meshVert fragSrc prog
      = Except.ok evs) :
    ((Event.uniform "textureTransform" ∈ evs)
      ↔ prog.requiresUniform "textureTransform" = true)
    ∧ ((Event.uniform "normalMatrix" ∈ evs)
      ↔ prog.requiresUniform "normalMatrix" = true)
    ∧ (Mat4.invert p.transformation).isSome = true := by
  simp only [Particles.render_with_material] at h
  split at h
  · exact Except.noConfusion h
  · split at h
    · exact Except.noConfusion h
    · rename_i inv heqI
      split at h
      · exact Except.noConfusion h
      · rename_i vevs heqv
        split at h
        · exact Except.noConfusion h
        · rename_i ievs heqi
          have hvno : ∀ u, Event.uniform u ∉ vevs := by
            intro u hu
            obtain ⟨n, -, heq2⟩ := bindAttrsFrom_events _ _ _ _ _ _ heqv
              (Event.uniform u) hu
            exact Event.noConfusion heq2
          have hino : ∀ u, Event.uniform u ∉ ievs := by
            intro u hu
            obtain ⟨n, -, heq2⟩ := bindAttrsFrom_events _ _ _ _ _ _ heqi
              (Event.uniform u) hu
            exact Event.noConfusion heq2
          split at h
          · injection h with h'
            subst h'
            refine ⟨?_, ?_, by simp [heqI]⟩
            · cases hb1 : prog.requiresUniform "textureTransform" <;>
                cases hb2 : prog.requiresUniform "normalMatrix" <;>
                  simp [hb1, hb2, hvno, hino]
            · cases hb1 : prog.requiresUniform "textureTransform" <;>
                cases hb2 : prog.requiresUniform "normalMatrix" <;>
                  simp [hb1, hb2, hvno, hino]
          · split at h
            · exact Except.noConfusion h
            · injection h with h'
              subst h'
              refine ⟨?_, ?_, by simp [heqI]⟩
              · cases hb1 : prog.requiresUniform "textureTransform" <;>
                  cases hb2 : prog.requiresUniform "normalMatrix" <;>
                    simp [hb1, hb2, hvno, hino]
              · cases hb1 : prog.requiresUniform "textureTransform" <;>
                  cases hb2 : prog.requiresUniform "normalMatrix" <;>
                    simp [hb1, hb2, hvno, hino]

/-- A program that declares exactly the `textureTransform` uniform and
requires no attribute. -/
def progTexT : Program := ⟨fun n => n == "textureTransform", fun _ => false⟩

/-- Evaluation of a concrete render call against `progTexT`: the
`textureTransform` uniform is bound, `normalMatrix` is not. -/
theorem render_pIndexed_texT_eval :
    pIndexed.render_with_material "SHARED" "MESH" (fun _ => "") progTexT
      = Except.ok [Event.materialUniforms, Event.uniform "viewProjection",
          Event.uniform "modelMatrix", Event.uniform "acceleration",
          Event.uniform "time", Event.uniform "textureTransform",
          Event.drawElementsInstanced 4] := by
  simp [Particles.render_with_material, vertex_shader_source,
    vertex_shader_defines, containsSubstr, hasSubstrChars, startsWithChars,
    pIndexed, progTexT, invert_identity, bindAttrsFrom, getKey, hasKey]

/-- C9 witness: the amended theorem applied to the concrete render above —
the bound uniforms are exactly those the program declares, and the
transformation was invertible. -/
theorem render_optional_uniforms_conditional_witness :
    ((Event.uniform "textureTransform"
        ∈ [Event.materialUniforms, Event.uniform "viewProjection",
           Event.uniform "modelMatrix", Event.uniform "acceleration",
           Event.uniform "time", Event.uniform "textureTransform",
           Event.drawElementsInstanced 4])
      ↔ progTexT.requiresUniform "textureTransform" = true)
    ∧ ((Event.uniform "normalMatrix"
        ∈ [Event.materialUniforms, Event.uniform "viewProjection",
           Event.uniform "modelMatrix", Event.uniform "acceleration",
           Event.uniform "time", Event.uniform "textureTransform",
           Event.drawElementsInstanced 4])
      ↔ progTexT.requiresUniform "normalMatrix" = true)
    ∧ (Mat4.invert pIndexed.transformation).isSome = true :=
  render_optional_uniforms_conditional pIndexed "SHARED" "MESH"
    (fun _ => "") progTexT
    [Event.materialUniforms, Event.uniform "viewProjection",
     Event.uniform "modelMatrix", Event.uniform "acceleration",
     Event.uniform "time", Event.uniform "textureTransform",
     Event.drawElementsInstanced 4]
    render_pIndexed_texT_eval
